import Mathlib

/-!
Shallow embedding of the WebSocket server (src/src/frame.rs and
src/src/main.rs).  Bytes are modelled as `Nat`, byte streams as `List Nat`
consumed from the front.  Fallible reads return `Option`; a Rust panic
(an `unwrap` on `Err`, or an out-of-range slice) is modelled as a
distinguished outcome (`ReadResult.crash`, or `Option.none` for functions
whose only failure mode is a panic).
-/

namespace ChatRs

/-- Marker value for the 16-bit extended payload length (`PAYLOAD_LEN_U16`). -/
def PAYLOAD_LEN_U16 : Nat := 126

/-- Marker value for the 64-bit extended payload length (`PAYLOAD_LEN_U64`). -/
def PAYLOAD_LEN_U64 : Nat := 127

/-- Frame opcodes, from `enum OpCode` in frame.rs. -/
inductive OpCode where
  | TextFrame
  | BinaryFrame
  | ConnectionClose
  | Ping
  | Pong
deriving DecidableEq, Repr

/-- Discriminant values of `OpCode` (the `as u8` view used by the codec). -/
def OpCode.toNat : OpCode → Nat
  | .TextFrame => 1
  | .BinaryFrame => 2
  | .ConnectionClose => 8
  | .Ping => 9
  | .Pong => 0xA

/-- Embedding of `OpCode::from` in frame.rs. -/
def OpCode.fromNat (op : Nat) : Option OpCode :=
  match op with
  | 1 => some OpCode.TextFrame
  | 2 => some OpCode.BinaryFrame
  | 8 => some OpCode.ConnectionClose
  | 9 => some OpCode.Ping
  | 0xA => some OpCode.Pong
  | _ => none

/-- Embedding of `struct WebSocketFrameHeader` in frame.rs.
`payload_length` is the u8 length-code byte (always below 128). -/
structure WebSocketFrameHeader where
  fin : Bool
  rsv1 : Bool
  rsv2 : Bool
  rsv3 : Bool
  masked : Bool
  opcode : OpCode
  payload_length : Nat
deriving DecidableEq, Repr

/-- Embedding of `WebSocketFrameHeader::determine_len`: the length-code
byte chosen for a payload of `len` bytes (`u16::MAX` is 65535). -/
def WebSocketFrameHeader.determine_len (len : Nat) : Nat :=
  if len < PAYLOAD_LEN_U16 then len
  else if len < 65535 then PAYLOAD_LEN_U16
  else PAYLOAD_LEN_U64

/-- Embedding of `WebSocketFrameHeader::new_header`. -/
def WebSocketFrameHeader.new_header (len : Nat) (opcode : OpCode) : WebSocketFrameHeader :=
  { fin := true
    rsv1 := false
    rsv2 := false
    rsv3 := false
    masked := false
    payload_length := WebSocketFrameHeader.determine_len len
    opcode := opcode }

/-- Embedding of `struct WebSocketFrame` in frame.rs.  The mask, when
present, is the 4-byte key read off the wire. -/
structure WebSocketFrame where
  header : WebSocketFrameHeader
  mask : Option (List Nat)
  payload : List Nat
deriving DecidableEq, Repr

/-- UTF-8 bytes of an ASCII string (all strings the program feeds to the
codec and the digest are ASCII, where UTF-8 agrees with the code points). -/
def strBytes (s : String) : List Nat := s.data.map Char.toNat

/-- Embedding of `impl From<&str> for WebSocketFrame`: a Text frame around
the string payload discussed in the spec as `fromText`. -/
def WebSocketFrame.fromText (payload : String) : WebSocketFrame :=
  { header := WebSocketFrameHeader.new_header (strBytes payload).length OpCode.TextFrame
    payload := strBytes payload
    mask := none }

/-- Big-endian `write_u16`: the two bytes of `n` as a `u16` (truncating). -/
def be16 (n : Nat) : List Nat := [n / 256 % 256, n % 256]

/-- Big-endian `write_u64`: the eight bytes of `n` as a `u64` (truncating). -/
def be64 (n : Nat) : List Nat :=
  [n / 2 ^ 56 % 256, n / 2 ^ 48 % 256, n / 2 ^ 40 % 256, n / 2 ^ 32 % 256,
   n / 2 ^ 24 % 256, n / 2 ^ 16 % 256, n / 256 % 256, n % 256]

/-- Big-endian `read_u16` (byteorder): exactly two bytes or an I/O error. -/
def read_u16 (input : List Nat) : Option (Nat × List Nat) :=
  match input with
  | b0 :: b1 :: rest => some (b0 * 256 + b1, rest)
  | _ => none

/-- Big-endian `read_u64` (byteorder): exactly eight bytes or an I/O error. -/
def read_u64 (input : List Nat) : Option (Nat × List Nat) :=
  match input with
  | b0 :: b1 :: b2 :: b3 :: b4 :: b5 :: b6 :: b7 :: rest =>
      some (((((((b0 * 256 + b1) * 256 + b2) * 256 + b3) * 256 + b4) * 256 + b5) * 256
              + b6) * 256 + b7, rest)
  | _ => none

/-- One `Read::read` call into a zero-initialised buffer of `k` bytes: it
fills the buffer with the bytes currently available (up to `k`) and leaves
the remaining buffer bytes zero; it never fails and its byte count is not
checked by the codec. -/
def readFill (k : Nat) (input : List Nat) : List Nat × List Nat :=
  (input.take k ++ List.replicate (k - input.length) 0, input.drop k)

/-- Embedding of `WebSocketFrame::read_mask`: a single read into `[0; 4]`. -/
def WebSocketFrame.read_mask (input : List Nat) : List Nat × List Nat :=
  readFill 4 input

/-- Embedding of `WebSocketFrame::read_payload`: a single read into a
zero-filled buffer of `payload_len` bytes. -/
def WebSocketFrame.read_payload (payload_len : Nat) (input : List Nat) : List Nat × List Nat :=
  readFill payload_len input

/-- Embedding of `WebSocketFrame::read_length`. -/
def WebSocketFrame.read_length (payload_len : Nat) (input : List Nat) : Option (Nat × List Nat) :=
  if payload_len = PAYLOAD_LEN_U64 then read_u64 input
  else if payload_len = PAYLOAD_LEN_U16 then read_u16 input
  else some (payload_len, input)

/-- Embedding of `WebSocketFrame::parse_header` (the `let opcode_num`
binding is inlined). -/
def WebSocketFrame.parse_header (buf : Nat) : Except String WebSocketFrameHeader :=
  match OpCode.fromNat ((buf >>> 8) &&& 0x0F) with
  | some opcode =>
      Except.ok
        { fin := (buf >>> 8) &&& 0x80 == 0x80
          rsv1 := (buf >>> 8) &&& 0x40 == 0x40
          rsv2 := (buf >>> 8) &&& 0x20 == 0x20
          rsv3 := (buf >>> 8) &&& 0x10 == 0x10
          opcode := opcode
          masked := buf &&& 0x80 == 0x80
          payload_length := (buf % 256) &&& 0x7F }
  | none => Except.error ("Invalid opcode: " ++ toString ((buf >>> 8) &&& 0x0F))

/-- Cyclic XOR of `bytes` against `mask`, indexed from `i` (the body of the
`enumerate` loop in `WebSocketFrame::apply_mask`). -/
def applyMaskGo (mask : List Nat) : Nat → List Nat → List Nat
  | _, [] => []
  | i, c :: rest => (c ^^^ mask.getD (i % 4) 0) :: applyMaskGo mask (i + 1) rest

/-- Embedding of `WebSocketFrame::apply_mask`: XOR byte `i` with
`mask[i % 4]`. -/
def WebSocketFrame.apply_mask (mask : List Nat) (bytes : List Nat) : List Nat :=
  applyMaskGo mask 0 bytes

/-- Outcome of `WebSocketFrame::read`: a decoded frame plus the unconsumed
input, an I/O error (propagated by `try!`), or a panic (the `unwrap` on
`parse_header`). -/
inductive ReadResult where
  | ok (frame : WebSocketFrame) (rest : List Nat)
  | ioError
  | crash (msg : String)
deriving DecidableEq, Repr

/-- Embedding of `WebSocketFrame::read`. -/
def WebSocketFrame.read (input : List Nat) : ReadResult :=
  match read_u16 input with
  | none => ReadResult.ioError
  | some (buf, input1) =>
    match WebSocketFrame.parse_header buf with
    | Except.error e => ReadResult.crash e
    | Except.ok header =>
      match WebSocketFrame.read_length header.payload_length input1 with
      | none => ReadResult.ioError
      | some (len, input2) =>
        if header.masked then
          match WebSocketFrame.read_mask input2 with
          | (mask, input3) =>
            match WebSocketFrame.read_payload len input3 with
            | (payload, input4) =>
              ReadResult.ok
                { header := header
                  payload := WebSocketFrame.apply_mask mask payload
                  mask := some mask } input4
        else
          match WebSocketFrame.read_payload len input2 with
          | (payload, input3) =>
            ReadResult.ok { header := header, payload := payload, mask := none } input3

/-- Embedding of `WebSocketFrame::serialize_header`. -/
def WebSocketFrame.serialize_header (header : WebSocketFrameHeader) : Nat :=
  let b1 := (header.fin.toNat <<< 7) ||| (header.rsv1.toNat <<< 6)
            ||| (header.rsv2.toNat <<< 5) ||| (header.rsv3.toNat <<< 4)
            ||| (header.opcode.toNat &&& 0x7F)
  let b2 := (header.masked.toNat <<< 7) ||| (header.payload_length &&& 0x7F)
  (b1 <<< 8) ||| b2

/-- Embedding of `WebSocketFrame::write`: the byte stream the frame puts on
the socket. -/
def WebSocketFrame.write (f : WebSocketFrame) : List Nat :=
  be16 (WebSocketFrame.serialize_header f.header)
  ++ (if f.header.payload_length = PAYLOAD_LEN_U16 then be16 f.payload.length
      else if f.header.payload_length = PAYLOAD_LEN_U64 then be64 f.payload.length
      else [])
  ++ f.payload

/-- Embedding of `WebSocketFrame::get_opcode`. -/
def WebSocketFrame.get_opcode (f : WebSocketFrame) : OpCode := f.header.opcode

/-- Embedding of `WebSocketFrame::pong`. -/
def WebSocketFrame.pong (ping_frame : WebSocketFrame) : WebSocketFrame :=
  { header := WebSocketFrameHeader.new_header ping_frame.payload.length OpCode.Ping
    payload := ping_frame.payload
    mask := none }

/-- Embedding of `WebSocketFrame::close_from`.  The slice
`&recv_frame.payload[0..2]` panics when the payload holds exactly one
byte; that panic is `none`. -/
def WebSocketFrame.close_from (recv_frame : WebSocketFrame) : Option WebSocketFrame :=
  if recv_frame.payload.length > 0 then
    if 2 ≤ recv_frame.payload.length then
      let body := recv_frame.payload.take 2
      some { header := WebSocketFrameHeader.new_header body.length OpCode.ConnectionClose
             payload := body
             mask := none }
    else none
  else
    some { header := WebSocketFrameHeader.new_header 0 OpCode.ConnectionClose
           payload := []
           mask := none }

/-- Embedding of `WebSocketFrame::is_close`. -/
def WebSocketFrame.is_close (f : WebSocketFrame) : Bool :=
  f.header.opcode = OpCode.ConnectionClose

/-- Every frame the server itself constructs: header from `new_header`, no
mask (the construction shared by `From<&str>`, `pong` and `close_from`). -/
def mkServerFrame (op : OpCode) (p : List Nat) : WebSocketFrame :=
  { header := WebSocketFrameHeader.new_header p.length op
    mask := none
    payload := p }

/-! SHA-1 and base64, modelled from the spec: the digest and encoding are
external collaborators (the `sha1` and `rustc_serialize` crates, outside
this repository); §6 of the spec fixes the accept-value algorithm as
`base64(sha1(key + GUID))`, so both are embedded here by their standard
definitions (FIPS 180 SHA-1, RFC 4648 standard base64 with padding). -/

/-- Wrap-around modulus for 32-bit words. -/
def u32mod : Nat := 2 ^ 32

/-- Rotate a 32-bit word left by `k` bits. -/
def rotl32 (k n : Nat) : Nat := ((n <<< k) % u32mod) ||| (n >>> (32 - k))

/-- Group a byte list into big-endian 32-bit words (complete groups only). -/
def bytesToWords : List Nat → List Nat
  | a :: b :: c :: d :: rest => (((a * 256 + b) * 256 + c) * 256 + d) :: bytesToWords rest
  | _ => []

/-- SHA-1 padding: a 0x80 byte, zeros to 56 mod 64, then the bit length as
a big-endian 64-bit integer. -/
def sha1pad (msg : List Nat) : List Nat :=
  msg ++ [0x80] ++ List.replicate ((64 - (msg.length + 9) % 64) % 64) 0
      ++ be64 (msg.length * 8)

/-- SHA-1 round function for round `t`. -/
def sha1f (t b c d : Nat) : Nat :=
  if t < 20 then (b &&& c) ||| ((b ^^^ 0xFFFFFFFF) &&& d)
  else if t < 40 then b ^^^ c ^^^ d
  else if t < 60 then (b &&& c) ||| (b &&& d) ||| (c &&& d)
  else b ^^^ c ^^^ d

/-- SHA-1 round constant for round `t`. -/
def sha1k (t : Nat) : Nat :=
  if t < 20 then 0x5A827999
  else if t < 40 then 0x6ED9EBA1
  else if t < 60 then 0x8F1BBCDC
  else 0xCA62C1D6

/-- Extend the 16 block words by `k` more schedule words. -/
def sha1Schedule : Nat → List Nat → List Nat
  | 0, ws => ws
  | k + 1, ws =>
      let n := ws.length
      let w := rotl32 1 ((ws.getD (n - 3) 0) ^^^ (ws.getD (n - 8) 0)
                          ^^^ (ws.getD (n - 14) 0) ^^^ (ws.getD (n - 16) 0))
      sha1Schedule k (ws ++ [w])

/-- The five 32-bit SHA-1 chaining words. -/
structure Sha1State where
  a : Nat
  b : Nat
  c : Nat
  d : Nat
  e : Nat
deriving DecidableEq, Repr

/-- One SHA-1 compression round on the chaining state. -/
def sha1Round (w : List Nat) (st : Sha1State) (t : Nat) : Sha1State :=
  let tmp := (rotl32 5 st.a + sha1f t st.b st.c st.d + st.e + sha1k t + w.getD t 0) % u32mod
  ⟨tmp, st.a, rotl32 30 st.b, st.c, st.d⟩

/-- Compress one 64-byte block into the chaining state. -/
def sha1Block (h : Sha1State) (block : List Nat) : Sha1State :=
  let w := sha1Schedule 64 (bytesToWords block)
  let st := (List.range 80).foldl (sha1Round w) h
  ⟨(h.a + st.a) % u32mod, (h.b + st.b) % u32mod, (h.c + st.c) % u32mod,
   (h.d + st.d) % u32mod, (h.e + st.e) % u32mod⟩

/-- Split a list into `n` successive 64-element chunks. -/
def chunk64Go : Nat → List Nat → List (List Nat)
  | 0, _ => []
  | n + 1, l => l.take 64 :: chunk64Go n (l.drop 64)

/-- Split a (padded, 64-aligned) list into its 64-byte blocks. -/
def chunk64 (l : List Nat) : List (List Nat) := chunk64Go (l.length / 64) l

/-- The SHA-1 initial chaining state. -/
def sha1Init : Sha1State := ⟨0x67452301, 0xEFCDAB89, 0x98BADCFE, 0x10325476, 0xC3D2E1F0⟩

/-- The four big-endian bytes of a 32-bit word. -/
def wordBytes (w : Nat) : List Nat :=
  [w / 2 ^ 24 % 256, w / 2 ^ 16 % 256, w / 256 % 256, w % 256]

/-- SHA-1 digest (20 bytes) of a byte message. -/
def sha1Bytes (msg : List Nat) : List Nat :=
  let fin := (chunk64 (sha1pad msg)).foldl sha1Block sha1Init
  wordBytes fin.a ++ wordBytes fin.b ++ wordBytes fin.c ++ wordBytes fin.d ++ wordBytes fin.e

/-- The RFC 4648 standard base64 alphabet. -/
def base64Alphabet : String := "ABCDEFGHIJKLMNOPQRSTUVWXYZabcdefghijklmnopqrstuvwxyz0123456789+/"

/-- The base64 digit for a 6-bit value. -/
def base64Digit (n : Nat) : Char := base64Alphabet.data.getD n 'A'

/-- Encode successive 3-byte groups into 4 base64 characters, padding the
final partial group with `=`. -/
def base64Go : List Nat → List Char
  | [] => []
  | [a] => [base64Digit (a / 4), base64Digit (a % 4 * 16), '=', '=']
  | [a, b] => [base64Digit (a / 4), base64Digit (a % 4 * 16 + b / 16),
               base64Digit (b % 16 * 4), '=']
  | a :: b :: c :: rest =>
      base64Digit (a / 4) :: base64Digit (a % 4 * 16 + b / 16)
        :: base64Digit (b % 16 * 4 + c / 64) :: base64Digit (c % 64) :: base64Go rest

/-- Standard base64 encoding (`ToBase64` with `STANDARD` config). -/
def base64Encode (bytes : List Nat) : String := String.mk (base64Go bytes)

/-- The fixed magic GUID appended to the client key. -/
def websocketGuid : String := "258EAFA5-E914-47DA-95CA-C5AB0DC85B11"

/-- Embedding of `gen_key` in main.rs: feeding the key bytes and then the
GUID bytes to the digest equals digesting their concatenation. -/
def gen_key (key : String) : String :=
  base64Encode (sha1Bytes (strBytes key ++ strBytes websocketGuid))

/-! The per-connection state machine of main.rs. -/

/-- Embedding of `enum ClientState` (the handshake parser instance carried
by `AwaitingHandshake` is an external collaborator and is not modelled). -/
inductive ClientState where
  | awaitingHandshake
  | handshakeResponse
  | connected
deriving DecidableEq, Repr

/-- Registered readiness interests of a connection (mio `EventSet`). -/
structure EventSet where
  readable : Bool
  writable : Bool
  hup : Bool
deriving DecidableEq, Repr

/-- Embedding of `struct WebSocketClient`: the socket handle is replaced by
explicit byte streams in the operations below. -/
structure WebSocketClient where
  headers : List (String × String)
  interest : EventSet
  state : ClientState
  outgoing : List WebSocketFrame
deriving DecidableEq, Repr

/-- Embedding of `WebSocketClient::read_frame` (the Connected-state
readable handler): `input` is the byte stream available on the socket,
`none` is a panic (invalid opcode unwrap, or the slice panic inside
`close_from`). -/
def WebSocketClient.read_frame (c : WebSocketClient) (input : List Nat) :
    Option WebSocketClient :=
  match WebSocketFrame.read input with
  | ReadResult.crash _ => none
  | ReadResult.ioError => some c
  | ReadResult.ok frame _ =>
    let newOutgoing : Option (List WebSocketFrame) :=
      match frame.get_opcode with
      | OpCode.TextFrame => some (c.outgoing ++ [WebSocketFrame.fromText "hi there!"])
      | OpCode.Ping => some (c.outgoing ++ [WebSocketFrame.pong frame])
      | OpCode.ConnectionClose =>
          (WebSocketFrame.close_from frame).map (fun cf => c.outgoing ++ [cf])
      | _ => some c.outgoing
    match newOutgoing with
    | none => none
    | some out =>
        some { c with
               outgoing := out
               interest := { c.interest with readable := false, writable := true } }

/-- Embedding of the Connected arm of `WebSocketClient::write`: returns the
updated client and the bytes written to the socket. -/
def WebSocketClient.write_connected (c : WebSocketClient) : WebSocketClient × List Nat :=
  let written := (c.outgoing.map WebSocketFrame.write).flatten
  let close_connection := c.outgoing.any WebSocketFrame.is_close
  let interest1 : EventSet := { c.interest with writable := false }
  let interest2 := if close_connection then { interest1 with hup := true }
                   else { interest1 with readable := true }
  ({ c with outgoing := [], interest := interest2 }, written)

/-- Header-map lookup standing for `headers.get(..)` on the `HashMap`. -/
def lookupHeader (headers : List (String × String)) (k : String) : Option String :=
  (headers.find? (fun p => p.1 = k)).map Prod.snd

/-- Embedding of `WebSocketClient::write_handshake`; `none` is the panic of
the `unwrap` on a missing `Sec-WebSocket-Key` header. -/
def WebSocketClient.write_handshake (c : WebSocketClient) :
    Option (WebSocketClient × List Nat) :=
  match lookupHeader c.headers "Sec-WebSocket-Key" with
  | none => none
  | some key =>
      let response := "HTTP/1.1 101 Switching Protocols\r\nConnection: Upgrade\r\nSec-WebSocket-Accept: "
                      ++ gen_key key ++ "\r\nUpgrade: websocket\r\n\r\n"
      some ({ c with
              state := ClientState.connected
              interest := { c.interest with writable := false, readable := true } },
            strBytes response)

/-- Embedding of `WebSocketClient::write`: dispatch on the state. -/
def WebSocketClient.write (c : WebSocketClient) : Option (WebSocketClient × List Nat) :=
  match c.state with
  | ClientState.handshakeResponse => c.write_handshake
  | ClientState.connected => some c.write_connected
  | _ => some (c, [])

/-- Concrete Connected-state client used by the scenario theorems. -/
def sampleClient : WebSocketClient :=
  { headers := []
    interest := { readable := true, writable := false, hup := false }
    state := ClientState.connected
    outgoing := [] }

/-- A Connected-state client about to flush a queued Close frame, with
readable interest already cleared by the preceding read. -/
def closingClient : WebSocketClient :=
  { headers := []
    interest := { readable := false, writable := true, hup := false }
    state := ClientState.connected
    outgoing := [mkServerFrame OpCode.ConnectionClose [3, 232]] }

/-! Arithmetic helper lemmas: masks and shifts as division and modulus. -/

theorem and_two_pow_div (x k : Nat) : x &&& 2 ^ k = x / 2 ^ k % 2 * 2 ^ k := by
  rw [Nat.and_two_pow, Nat.testBit_to_div_mod]
  rcases Nat.mod_two_eq_zero_or_one (x / 2 ^ k) with h | h <;> simp [h]

theorem and128 (x : Nat) : x &&& 128 = x / 128 % 2 * 128 := by
  have h : (128 : Nat) = 2 ^ 7 := by norm_num
  calc x &&& 128 = x &&& 2 ^ 7 := by rw [h]
    _ = x / 2 ^ 7 % 2 * 2 ^ 7 := and_two_pow_div x 7
    _ = x / 128 % 2 * 128 := by norm_num

theorem and64 (x : Nat) : x &&& 64 = x / 64 % 2 * 64 := by
  have h : (64 : Nat) = 2 ^ 6 := by norm_num
  calc x &&& 64 = x &&& 2 ^ 6 := by rw [h]
    _ = x / 2 ^ 6 % 2 * 2 ^ 6 := and_two_pow_div x 6
    _ = x / 64 % 2 * 64 := by norm_num

theorem and32 (x : Nat) : x &&& 32 = x / 32 % 2 * 32 := by
  have h : (32 : Nat) = 2 ^ 5 := by norm_num
  calc x &&& 32 = x &&& 2 ^ 5 := by rw [h]
    _ = x / 2 ^ 5 % 2 * 2 ^ 5 := and_two_pow_div x 5
    _ = x / 32 % 2 * 32 := by norm_num

theorem and16 (x : Nat) : x &&& 16 = x / 16 % 2 * 16 := by
  have h : (16 : Nat) = 2 ^ 4 := by norm_num
  calc x &&& 16 = x &&& 2 ^ 4 := by rw [h]
    _ = x / 2 ^ 4 % 2 * 2 ^ 4 := and_two_pow_div x 4
    _ = x / 16 % 2 * 16 := by norm_num

theorem and15 (x : Nat) : x &&& 15 = x % 16 := by
  have h : (15 : Nat) = 2 ^ 4 - 1 := by norm_num
  rw [h, Nat.and_pow_two_sub_one_eq_mod]

theorem and127 (x : Nat) : x &&& 127 = x % 128 := by
  have h : (127 : Nat) = 2 ^ 7 - 1 := by norm_num
  rw [h, Nat.and_pow_two_sub_one_eq_mod]

theorem shr8 (x : Nat) : x >>> 8 = x / 256 := by
  rw [Nat.shiftRight_eq_div_pow]

theorem shiftLeft8_lor (a b : Nat) (hb : b < 256) : (a <<< 8) ||| b = a * 256 + b := by
  have hb' : b < 2 ^ 8 := by norm_num [hb]
  have h := Nat.mul_add_lt_is_or hb' a
  rw [Nat.shiftLeft_eq]
  calc a * 2 ^ 8 ||| b = 2 ^ 8 * a ||| b := by rw [Nat.mul_comm]
    _ = 2 ^ 8 * a + b := h.symm
    _ = a * 256 + b := by ring

/-- Discriminants of all five opcodes are below 16. -/
theorem OpCode.toNat_lt (op : OpCode) : op.toNat < 16 := by
  cases op <;> decide

/-- Decoding an opcode discriminant recovers the opcode. -/
theorem OpCode.fromNat_toNat (op : OpCode) : OpCode.fromNat op.toNat = some op := by
  cases op <;> rfl

/-- Opcode parsing fails exactly outside the five valid discriminants. -/
theorem OpCode.fromNat_none_iff (n : Nat) :
    OpCode.fromNat n = none ↔ n ∉ [1, 2, 8, 9, 10] := by
  unfold OpCode.fromNat
  split <;> simp_all

/-! Claim theorems. -/

/-- C2: determine_len returns the length itself below 126, the 16-bit
marker 126 for lengths in [126, 65535), and the 64-bit marker 127 from
65535 upward, so a payload of exactly 65535 bytes takes the 64-bit
encoding. -/
theorem determine_len_spec (n : Nat) :
    (n < 126 → WebSocketFrameHeader.determine_len n = n) ∧
    (126 ≤ n → n < 65535 → WebSocketFrameHeader.determine_len n = 126) ∧
    (65535 ≤ n → WebSocketFrameHeader.determine_len n = 127) := by
  unfold WebSocketFrameHeader.determine_len PAYLOAD_LEN_U16 PAYLOAD_LEN_U64
  refine ⟨fun h => ?_, fun h1 h2 => ?_, fun h => ?_⟩ <;> split_ifs <;> omega

/-- C2 witness: concrete length-code selections, including the 65535
boundary routed to the 64-bit marker. -/
theorem determine_len_spec_witness :
    WebSocketFrameHeader.determine_len 100 = 100 ∧
    WebSocketFrameHeader.determine_len 65534 = 126 ∧
    WebSocketFrameHeader.determine_len 65535 = 127 :=
  ⟨(determine_len_spec 100).1 (by decide),
   (determine_len_spec 65534).2.1 (by decide) (by decide),
   (determine_len_spec 65535).2.2 (by decide)⟩

/-- Helper for C8: masking indexed from any start offset is involutive. -/
theorem applyMaskGo_involutive (mask : List Nat) (i : Nat) (bytes : List Nat) :
    applyMaskGo mask i (applyMaskGo mask i bytes) = bytes := by
  induction bytes generalizing i with
  | nil => rfl
  | cons c rest ih =>
      simp [applyMaskGo, Nat.xor_assoc, Nat.xor_self, Nat.xor_zero, ih]

/-- C8: applying the 4-byte XOR mask twice with the same key restores every
byte sequence. -/
theorem apply_mask_involutive (m0 m1 m2 m3 : Nat) (bytes : List Nat) :
    WebSocketFrame.apply_mask [m0, m1, m2, m3]
      (WebSocketFrame.apply_mask [m0, m1, m2, m3] bytes) = bytes :=
  applyMaskGo_involutive [m0, m1, m2, m3] 0 bytes

/-- C3: parsing a header word fails with the invalid-opcode error exactly
when the opcode nibble is outside {1, 2, 8, 9, 0xA}, and succeeds on those
five values. -/
theorem parse_header_opcode_validation (buf : Nat) :
    (((buf >>> 8) &&& 0x0F) ∉ [1, 2, 8, 9, 10] →
      WebSocketFrame.parse_header buf =
        Except.error ("Invalid opcode: " ++ toString ((buf >>> 8) &&& 0x0F))) ∧
    (((buf >>> 8) &&& 0x0F) ∈ [1, 2, 8, 9, 10] →
      ∃ h, WebSocketFrame.parse_header buf = Except.ok h) := by
  constructor
  · intro hmem
    have h := (OpCode.fromNat_none_iff ((buf >>> 8) &&& 0x0F)).mpr hmem
    unfold WebSocketFrame.parse_header
    rw [h]
  · intro hmem
    simp only [List.mem_cons, List.not_mem_nil, or_false] at hmem
    unfold WebSocketFrame.parse_header
    rcases hmem with h | h | h | h | h <;> rw [h] <;> exact ⟨_, rfl⟩

/-- C3 witness: opcode nibble 3 is rejected with the invalid-opcode error,
opcode nibble 1 is accepted. -/
theorem parse_header_opcode_validation_witness :
    WebSocketFrame.parse_header 0x0300 =
      Except.error ("Invalid opcode: " ++ toString (((0x0300 : Nat) >>> 8) &&& 0x0F)) ∧
    ∃ h, WebSocketFrame.parse_header 0x8100 = Except.ok h :=
  ⟨(parse_header_opcode_validation 0x0300).1 (by decide),
   (parse_header_opcode_validation 0x8100).2 (by decide)⟩

/-- Length codes are always a single byte below 128. -/
theorem determine_len_lt (len : Nat) : WebSocketFrameHeader.determine_len len < 128 := by
  unfold WebSocketFrameHeader.determine_len PAYLOAD_LEN_U16 PAYLOAD_LEN_U64
  split_ifs <;> omega

/-- Closed form of the serialized header word for server-built frames. -/
theorem serialize_new_header (op : OpCode) (len : Nat) :
    WebSocketFrame.serialize_header (WebSocketFrameHeader.new_header len op) =
      (128 + op.toNat) * 256 + WebSocketFrameHeader.determine_len len := by
  have hcode := determine_len_lt len
  have h1 : WebSocketFrame.serialize_header (WebSocketFrameHeader.new_header len op) =
      ((128 + op.toNat) <<< 8) ||| (WebSocketFrameHeader.determine_len len &&& 127) := by
    cases op <;>
      simp [WebSocketFrame.serialize_header, WebSocketFrameHeader.new_header, OpCode.toNat,
            and127]
  rw [h1, and127, Nat.mod_eq_of_lt hcode, shiftLeft8_lor _ _ (by omega)]

/-- Parsing the header word of a server-built (fin, unmasked) frame
recovers its fields. -/
theorem parse_header_server (op : OpCode) (code : Nat) (hcode : code < 128) :
    WebSocketFrame.parse_header ((128 + op.toNat) * 256 + code) =
      Except.ok { fin := true, rsv1 := false, rsv2 := false, rsv3 := false,
                  masked := false, opcode := op, payload_length := code } := by
  have ht := OpCode.toNat_lt op
  set x := (128 + op.toNat) * 256 + code with hx
  have h8 : x >>> 8 = 128 + op.toNat := by rw [shr8]; omega
  have e1 : OpCode.fromNat ((x >>> 8) &&& 0x0F) = some op := by
    rw [h8, and15]
    have h : (128 + op.toNat) % 16 = op.toNat := by omega
    rw [h, OpCode.fromNat_toNat]
  have e2 : ((x >>> 8) &&& 0x80 == 0x80) = true := by
    rw [h8, and128]
    have h : (128 + op.toNat) / 128 % 2 * 128 = 128 := by omega
    rw [h]
    decide
  have e3 : ((x >>> 8) &&& 0x40 == 0x40) = false := by
    rw [h8, and64]
    have h : (128 + op.toNat) / 64 % 2 * 64 = 0 := by omega
    rw [h]
    decide
  have e4 : ((x >>> 8) &&& 0x20 == 0x20) = false := by
    rw [h8, and32]
    have h : (128 + op.toNat) / 32 % 2 * 32 = 0 := by omega
    rw [h]
    decide
  have e5 : ((x >>> 8) &&& 0x10 == 0x10) = false := by
    rw [h8, and16]
    have h : (128 + op.toNat) / 16 % 2 * 16 = 0 := by omega
    rw [h]
    decide
  have e6 : (x &&& 0x80 == 0x80) = false := by
    rw [and128]
    have h : x / 128 % 2 * 128 = 0 := by omega
    rw [h]
    decide
  have e7 : (x % 256) &&& 0x7F = code := by
    rw [and127]
    omega
  unfold WebSocketFrame.parse_header
  simp only [e1, e2, e3, e4, e5, e6, e7]

/-- Reading back a big-endian 16-bit value. -/
theorem read_u16_be16 (n : Nat) (rest : List Nat) (h : n < 65536) :
    read_u16 (be16 n ++ rest) = some (n, rest) := by
  have he : n / 256 % 256 * 256 + n % 256 = n := by omega
  simp [read_u16, be16, he]

/-- Reading back a big-endian 64-bit value. -/
theorem read_u64_be64 (n : Nat) (rest : List Nat) (h : n < 2 ^ 64) :
    read_u64 (be64 n ++ rest) = some (n, rest) := by
  have h' : n < 18446744073709551616 := by norm_num at h; exact h
  simp [read_u64, be64]
  omega

/-- C1: writing any server-built unmasked frame (any opcode, any payload a
64-bit machine can hold) and then decoding the written bytes returns
exactly that frame, with the whole input consumed; in particular the
payload bytes and the opcode are unchanged for payload lengths
0, 1, 125, 126, 65534, 65535 and 65536. -/
theorem write_read_roundtrip (op : OpCode) (p : List Nat) (hlen : p.length < 2 ^ 64) :
    WebSocketFrame.read ((mkServerFrame op p).write) =
      ReadResult.ok (mkServerFrame op p) [] := by
  have ht := OpCode.toNat_lt op
  have hcode := determine_len_lt p.length
  have hhdr : (128 + op.toNat) * 256 + WebSocketFrameHeader.determine_len p.length < 65536 := by
    omega
  have hwrite : (mkServerFrame op p).write =
      be16 ((128 + op.toNat) * 256 + WebSocketFrameHeader.determine_len p.length) ++
      ((if WebSocketFrameHeader.determine_len p.length = PAYLOAD_LEN_U16 then be16 p.length
        else if WebSocketFrameHeader.determine_len p.length = PAYLOAD_LEN_U64 then be64 p.length
        else []) ++ p) := by
    simp only [WebSocketFrame.write, mkServerFrame, serialize_new_header, List.append_assoc]
    simp [WebSocketFrameHeader.new_header]
  rw [hwrite]
  unfold WebSocketFrame.read
  simp only [read_u16_be16 _ _ hhdr, parse_header_server op _ hcode]
  by_cases h1 : p.length < 126
  · have hc : WebSocketFrameHeader.determine_len p.length = p.length :=
      (determine_len_spec _).1 h1
    have h126 : ¬ p.length = PAYLOAD_LEN_U16 := by unfold PAYLOAD_LEN_U16; omega
    have h127 : ¬ p.length = PAYLOAD_LEN_U64 := by unfold PAYLOAD_LEN_U64; omega
    simp only [hc, if_neg h126, if_neg h127, List.nil_append, WebSocketFrame.read_length,
               WebSocketFrame.read_payload, readFill, List.take_length, Nat.sub_self,
               List.replicate_zero, List.append_nil, List.drop_length]
    simp [mkServerFrame, WebSocketFrameHeader.new_header, hc]
  · by_cases h2 : p.length < 65535
    · have hc : WebSocketFrameHeader.determine_len p.length = 126 :=
        (determine_len_spec _).2.1 (by omega) h2
      have hr := read_u16_be16 p.length p (by omega)
      simp only [hc, PAYLOAD_LEN_U16, PAYLOAD_LEN_U64,
                 WebSocketFrame.read_length, WebSocketFrame.read_payload, readFill]
      simp only [reduceIte, Nat.reduceEqDiff]
      rw [hr]
      simp [mkServerFrame, WebSocketFrameHeader.new_header, hc, PAYLOAD_LEN_U16]
    · have hc : WebSocketFrameHeader.determine_len p.length = 127 :=
        (determine_len_spec _).2.2 (by omega)
      have hr := read_u64_be64 p.length p hlen
      simp only [hc, PAYLOAD_LEN_U16, PAYLOAD_LEN_U64,
                 WebSocketFrame.read_length, WebSocketFrame.read_payload, readFill]
      simp only [reduceIte, Nat.reduceEqDiff]
      rw [hr]
      simp [mkServerFrame, WebSocketFrameHeader.new_header, hc, PAYLOAD_LEN_U64]

/-- C1 witness: a two-byte Text frame round-trips. -/
theorem write_read_roundtrip_witness :
    WebSocketFrame.read ((mkServerFrame OpCode.TextFrame [104, 105]).write) =
      ReadResult.ok (mkServerFrame OpCode.TextFrame [104, 105]) [] :=
  write_read_roundtrip OpCode.TextFrame [104, 105] (by decide)

/-- Parsing the header word of a fin frame with any masked bit recovers
its fields (the masked bit is byte 1 bit 7, the length code its low 7
bits). -/
theorem parse_header_bits (op : OpCode) (m : Bool) (code : Nat) (hcode : code < 128) :
    WebSocketFrame.parse_header ((128 + op.toNat) * 256 + (cond m 128 0 + code)) =
      Except.ok { fin := true, rsv1 := false, rsv2 := false, rsv3 := false,
                  masked := m, opcode := op, payload_length := code } := by
  cases m
  · simpa using parse_header_server op code hcode
  · have ht := OpCode.toNat_lt op
    simp only [cond_true]
    set x := (128 + op.toNat) * 256 + (128 + code) with hx
    have h8 : x >>> 8 = 128 + op.toNat := by rw [shr8]; omega
    have e1 : OpCode.fromNat ((x >>> 8) &&& 0x0F) = some op := by
      rw [h8, and15]
      have h : (128 + op.toNat) % 16 = op.toNat := by omega
      rw [h, OpCode.fromNat_toNat]
    have e2 : ((x >>> 8) &&& 0x80 == 0x80) = true := by
      rw [h8, and128]
      have h : (128 + op.toNat) / 128 % 2 * 128 = 128 := by omega
      rw [h]
      decide
    have e3 : ((x >>> 8) &&& 0x40 == 0x40) = false := by
      rw [h8, and64]
      have h : (128 + op.toNat) / 64 % 2 * 64 = 0 := by omega
      rw [h]
      decide
    have e4 : ((x >>> 8) &&& 0x20 == 0x20) = false := by
      rw [h8, and32]
      have h : (128 + op.toNat) / 32 % 2 * 32 = 0 := by omega
      rw [h]
      decide
    have e5 : ((x >>> 8) &&& 0x10 == 0x10) = false := by
      rw [h8, and16]
      have h : (128 + op.toNat) / 16 % 2 * 16 = 0 := by omega
      rw [h]
      decide
    have e6 : (x &&& 0x80 == 0x80) = true := by
      rw [and128]
      have h : x / 128 % 2 * 128 = 128 := by omega
      rw [h]
      decide
    have e7 : (x % 256) &&& 0x7F = code := by
      rw [and127]
      omega
    unfold WebSocketFrame.parse_header
    simp only [e1, e2, e3, e4, e5, e6, e7]

/-- Masking never changes the byte count. -/
theorem applyMaskGo_length (mask : List Nat) (j : Nat) (bytes : List Nat) :
    (applyMaskGo mask j bytes).length = bytes.length := by
  induction bytes generalizing j with
  | nil => rfl
  | cons c rest ih => simp [applyMaskGo, ih]

/-- Byte `i` of a masked buffer is the source byte XORed with the mask
byte at the cyclic offset. -/
theorem applyMaskGo_getD (mask : List Nat) (j : Nat) (bytes : List Nat) (i : Nat)
    (h : i < bytes.length) :
    (applyMaskGo mask j bytes).getD i 0 = bytes.getD i 0 ^^^ mask.getD ((j + i) % 4) 0 := by
  induction bytes generalizing j i with
  | nil => simp at h
  | cons c rest ih =>
      cases i with
      | zero => simp [applyMaskGo]
      | succ i =>
          simp only [applyMaskGo, List.getD_cons_succ]
          rw [ih (j + 1) i (by simpa using h)]
          congr 2
          omega

/-- In-range index of a replicated list returns the replicated element. -/
theorem getD_replicate (n i a d : Nat) (h : i < n) :
    (List.replicate n a).getD i d = a := by
  induction n generalizing i with
  | zero => omega
  | succ n ih =>
      cases i with
      | zero => rfl
      | succ i => simpa [List.replicate] using ih i (by omega)

/-- The exact decode result of a truncated-payload frame: for any opcode,
any of the three length encodings, masked or not, with the stream ending
after the mask key but before the declared payload length, read returns
Ok with a zero-padded buffer, masked frames getting that whole buffer
XORed with the mask. -/
theorem read_truncated_core (op : OpCode) (len code : Nat) (ext : List Nat)
    (b : Bool) (mkey p : List Nat)
    (hregime : (code = len ∧ len < 126 ∧ ext = []) ∨
               (code = 126 ∧ len < 65536 ∧ ext = be16 len) ∨
               (code = 127 ∧ len < 2 ^ 64 ∧ ext = be64 len))
    (hmk : b = true → mkey.length = 4)
    (hp : p.length ≤ len) :
    WebSocketFrame.read (be16 ((128 + op.toNat) * 256 + (cond b 128 0 + code)) ++ ext
        ++ (cond b mkey []) ++ p) =
      ReadResult.ok
        { header := { fin := true, rsv1 := false, rsv2 := false, rsv3 := false,
                      masked := b, opcode := op, payload_length := code }
          mask := cond b (some mkey) none
          payload := cond b
            (WebSocketFrame.apply_mask mkey (p ++ List.replicate (len - p.length) 0))
            (p ++ List.replicate (len - p.length) 0) } [] := by
  have ht := OpCode.toNat_lt op
  have hcode : code < 128 := by
    rcases hregime with ⟨h1, h2, h3⟩ | ⟨h1, h2, h3⟩ | ⟨h1, h2, h3⟩ <;> omega
  have hhdr : (128 + op.toNat) * 256 + (cond b 128 0 + code) < 65536 := by
    cases b <;> simp <;> omega
  rw [List.append_assoc, List.append_assoc]
  unfold WebSocketFrame.read
  simp only [read_u16_be16 _ _ hhdr, parse_header_bits op b code hcode]
  have hafter :
      WebSocketFrame.read_length code (ext ++ ((cond b mkey []) ++ p)) =
        some (len, (cond b mkey []) ++ p) := by
    rcases hregime with ⟨h1, h2, h3⟩ | ⟨h1, h2, h3⟩ | ⟨h1, h2, h3⟩ <;> subst h3 <;> rw [h1]
    · have h126 : ¬ len = PAYLOAD_LEN_U16 := by unfold PAYLOAD_LEN_U16; omega
      have h127 : ¬ len = PAYLOAD_LEN_U64 := by unfold PAYLOAD_LEN_U64; omega
      simp [WebSocketFrame.read_length, h126, h127]
    · simp only [WebSocketFrame.read_length, PAYLOAD_LEN_U16, PAYLOAD_LEN_U64]
      simp only [reduceIte, Nat.reduceEqDiff]
      exact read_u16_be16 len _ h2
    · simp only [WebSocketFrame.read_length, PAYLOAD_LEN_U16, PAYLOAD_LEN_U64]
      simp only [reduceIte]
      exact read_u64_be64 len _ h2
  simp only [hafter]
  cases b
  · simp only [cond_false, List.nil_append]
    simp [WebSocketFrame.read_payload, readFill, List.take_of_length_le hp,
          List.drop_eq_nil_of_le hp]
  · have hmk4 : mkey.length = 4 := hmk rfl
    have htake : (mkey ++ p).take 4 = mkey := List.take_left' hmk4
    have hdropm : (mkey ++ p).drop 4 = p := List.drop_left' hmk4
    have hzero : 4 - (mkey ++ p).length = 0 := by simp [hmk4]
    simp only [cond_true, WebSocketFrame.read_mask, readFill, htake, hdropm, hzero,
               List.replicate_zero, List.append_nil]
    simp [WebSocketFrame.read_payload, readFill, List.take_of_length_le hp,
          List.drop_eq_nil_of_le hp]

/-- C10 counterexample: a masked Text frame declaring 5 payload bytes with
mask key 1 2 3 4 and only one payload byte (10) on the wire decodes
without error to payload 11 2 3 4 1 — the bytes beyond those available
equal the cyclic mask bytes, not zero, because apply_mask XORs the whole
zero-filled buffer. -/
theorem read_masked_truncated_mask_padding :
    WebSocketFrame.read [0x81, 0x85, 1, 2, 3, 4, 10] =
      ReadResult.ok
        { header := { fin := true, rsv1 := false, rsv2 := false, rsv3 := false,
                      masked := true, opcode := OpCode.TextFrame, payload_length := 5 }
          mask := some [1, 2, 3, 4]
          payload := [11, 2, 3, 4, 1] } [] ∧
    ([11, 2, 3, 4, 1] : List Nat).getD 1 0 ≠ 0 :=
  ⟨rfl, by decide⟩

/-- C10 amended: when the stream ends before the declared payload length
is reached (after the header, any extended length, and any mask key have
been read), decode does not report an error: it returns a frame whose
payload has the declared length, and each payload byte beyond those
actually available is zero for an unmasked frame and equals the cyclic
mask byte key i mod 4 for a masked frame (the zero fill is XORed with the
mask); the single read call's byte count is never checked. -/
theorem read_truncated_payload (op : OpCode) (len code : Nat) (ext : List Nat)
    (b : Bool) (mkey p : List Nat)
    (hregime : (code = len ∧ len < 126 ∧ ext = []) ∨
               (code = 126 ∧ len < 65536 ∧ ext = be16 len) ∨
               (code = 127 ∧ len < 2 ^ 64 ∧ ext = be64 len))
    (hmk : b = true → mkey.length = 4)
    (hp : p.length ≤ len) :
    ∃ f, WebSocketFrame.read (be16 ((128 + op.toNat) * 256 + (cond b 128 0 + code)) ++ ext
          ++ (cond b mkey []) ++ p) = ReadResult.ok f [] ∧
      f.header.opcode = op ∧ f.header.masked = b ∧ f.header.payload_length = code ∧
      f.payload.length = len ∧
      ∀ i, p.length ≤ i → i < len →
        f.payload.getD i 0 = cond b (mkey.getD (i % 4) 0) 0 := by
  refine ⟨_, read_truncated_core op len code ext b mkey p hregime hmk hp, rfl, rfl, rfl,
          ?_, ?_⟩
  · cases b
    · simp
      omega
    · simp only [cond_true, WebSocketFrame.apply_mask, applyMaskGo_length]
      simp
      omega
  · intro i h1 h2
    have hlen : i < (p ++ List.replicate (len - p.length) 0).length := by
      simp
      omega
    have hpad : (p ++ List.replicate (len - p.length) 0).getD i 0 = 0 := by
      rw [List.getD_append_right _ _ _ _ h1]
      exact getD_replicate _ _ _ _ (by omega)
    cases b
    · simpa using hpad
    · simp only [cond_true, WebSocketFrame.apply_mask]
      rw [applyMaskGo_getD _ _ _ _ hlen, hpad, Nat.zero_xor]
      simp

/-- C10 amended witness: the masked truncated frame from the
counterexample, and an unmasked 16-bit-length frame with 300 declared
bytes of which only one arrives; both decode without error and pad with
mask bytes and zeros respectively. -/
theorem read_truncated_payload_witness :
    (∃ f, WebSocketFrame.read
          (be16 ((128 + OpCode.TextFrame.toNat) * 256 + (cond true 128 0 + 5)) ++ []
            ++ (cond true [1, 2, 3, 4] []) ++ [10]) = ReadResult.ok f [] ∧
      f.header.opcode = OpCode.TextFrame ∧ f.header.masked = true ∧
      f.header.payload_length = 5 ∧ f.payload.length = 5 ∧
      ∀ i, ([10] : List Nat).length ≤ i → i < 5 →
        f.payload.getD i 0 = cond true (([1, 2, 3, 4] : List Nat).getD (i % 4) 0) 0) ∧
    (∃ f, WebSocketFrame.read
          (be16 ((128 + OpCode.BinaryFrame.toNat) * 256 + (cond false 128 0 + 126))
            ++ be16 300 ++ (cond false [] []) ++ [7]) = ReadResult.ok f [] ∧
      f.header.opcode = OpCode.BinaryFrame ∧ f.header.masked = false ∧
      f.header.payload_length = 126 ∧ f.payload.length = 300 ∧
      ∀ i, ([7] : List Nat).length ≤ i → i < 300 →
        f.payload.getD i 0 = cond false (([] : List Nat).getD (i % 4) 0) 0) :=
  ⟨read_truncated_payload OpCode.TextFrame 5 5 [] true [1, 2, 3, 4] [10]
      (Or.inl ⟨rfl, by decide, rfl⟩) (fun _ => rfl) (by decide),
   read_truncated_payload OpCode.BinaryFrame 300 126 (be16 300) false [] [7]
      (Or.inr (Or.inl ⟨rfl, by decide, rfl⟩)) (by decide) (by decide)⟩

/-- C7 counterexample: a received frame whose payload is the single byte
0x03 makes close_from panic (out-of-range slice), so no Close frame with
the first two payload bytes is built. -/
theorem close_from_one_byte_panics :
    WebSocketFrame.close_from (mkServerFrame OpCode.ConnectionClose [0x03]) = none := by
  rfl

/-- C7 amended: close_from builds a Close frame whose payload is exactly
the first two bytes of the received payload when that payload has at least
two bytes, and an empty payload when the received payload is empty; a
payload of exactly one byte makes the slice `[0..2]` panic. -/
theorem close_from_spec (f : WebSocketFrame) :
    (2 ≤ f.payload.length →
      WebSocketFrame.close_from f =
        some { header := WebSocketFrameHeader.new_header (f.payload.take 2).length
                           OpCode.ConnectionClose
               payload := f.payload.take 2
               mask := none }) ∧
    (f.payload = [] →
      WebSocketFrame.close_from f =
        some { header := WebSocketFrameHeader.new_header 0 OpCode.ConnectionClose
               payload := []
               mask := none }) ∧
    (f.payload.length = 1 → WebSocketFrame.close_from f = none) := by
  unfold WebSocketFrame.close_from
  refine ⟨fun h => ?_, fun h => ?_, fun h => ?_⟩
  · rw [if_pos (by omega), if_pos h]
  · rw [if_neg (by simp [h])]
  · rw [if_pos (by omega), if_neg (by omega)]

/-- C7 amended witness: a close payload of two-plus bytes is echoed two
bytes long, an empty one stays empty, a one-byte one panics. -/
theorem close_from_spec_witness :
    WebSocketFrame.close_from (mkServerFrame OpCode.ConnectionClose [3, 232, 7]) =
      some { header := WebSocketFrameHeader.new_header
                         ((mkServerFrame OpCode.ConnectionClose [3, 232, 7]).payload.take 2).length
                         OpCode.ConnectionClose
             payload := (mkServerFrame OpCode.ConnectionClose [3, 232, 7]).payload.take 2
             mask := none } ∧
    WebSocketFrame.close_from (mkServerFrame OpCode.ConnectionClose []) =
      some { header := WebSocketFrameHeader.new_header 0 OpCode.ConnectionClose
             payload := []
             mask := none } ∧
    WebSocketFrame.close_from (mkServerFrame OpCode.Ping [9]) = none :=
  ⟨(close_from_spec _).1 (by decide),
   (close_from_spec _).2.1 (by decide),
   (close_from_spec _).2.2 (by decide)⟩

/-- C9 counterexample: a readable event whose bytes carry opcode nibble 3
is a decode failure, but it panics (aborting the process) instead of
leaving the connection open and unchanged. -/
theorem read_frame_invalid_opcode_aborts :
    WebSocketClient.read_frame sampleClient [0x83, 0x00] ≠ some sampleClient ∧
    WebSocketClient.read_frame sampleClient [0x83, 0x00] = none := by
  constructor
  · decide
  · rfl

/-- C9 amended: in the Connected state a decode failure from truncated
input (an I/O error) leaves the connection exactly as it was — same state,
interest set and outbound queue — while a malformed opcode panics via the
unwrap instead of returning. -/
theorem read_frame_decode_failure (c : WebSocketClient) (input : List Nat) :
    (WebSocketFrame.read input = ReadResult.ioError →
      WebSocketClient.read_frame c input = some c) ∧
    (∀ e, WebSocketFrame.read input = ReadResult.crash e →
      WebSocketClient.read_frame c input = none) := by
  constructor
  · intro h
    unfold WebSocketClient.read_frame
    rw [h]
  · intro e h
    unfold WebSocketClient.read_frame
    rw [h]

/-- C9 amended witness: a one-byte stream is an I/O error and leaves the
client untouched; opcode nibble 3 panics. -/
theorem read_frame_decode_failure_witness :
    WebSocketClient.read_frame sampleClient [0x81] = some sampleClient ∧
    WebSocketClient.read_frame sampleClient [0x83, 0x00] = none :=
  ⟨(read_frame_decode_failure sampleClient [0x81]).1 rfl,
   (read_frame_decode_failure sampleClient [0x83, 0x00]).2 "Invalid opcode: 3" rfl⟩

/-- C5: in the Connected state a writable event writes every queued frame
in order, empties the queue, and flips interest to hangup (readable stays
cleared) when some written frame was a Close, else back to readable with
writable cleared.  The hypothesis that readable was not registered holds
whenever a writable event is delivered, since the read path always removes
readable when it requests writability. -/
theorem write_drains_queue (c : WebSocketClient)
    (hc : c.state = ClientState.connected)
    (hr : c.interest.readable = false) :
    WebSocketClient.write c =
      some ({ c with
              outgoing := []
              interest := if c.outgoing.any WebSocketFrame.is_close
                          then { readable := false, writable := false, hup := true }
                          else { readable := true, writable := false,
                                 hup := c.interest.hup } },
            (c.outgoing.map WebSocketFrame.write).flatten) := by
  obtain ⟨hs, ⟨ir, iw, ih⟩, st, outq⟩ := c
  simp only at hr hc
  subst hr hc
  unfold WebSocketClient.write
  simp only [WebSocketClient.write_connected]

/-- C5 witness: a queued Close frame is written, the queue is cleared, and
interest becomes hangup without readable. -/
theorem write_drains_queue_witness :
    WebSocketClient.write closingClient =
      some ({ closingClient with
              outgoing := []
              interest := if closingClient.outgoing.any WebSocketFrame.is_close
                          then { readable := false, writable := false, hup := true }
                          else { readable := true, writable := false,
                                 hup := closingClient.interest.hup } },
            (closingClient.outgoing.map WebSocketFrame.write).flatten) :=
  write_drains_queue closingClient rfl rfl

set_option maxRecDepth 20000 in
/-- C6: the handshake accept value is the base64 of the SHA-1 digest of
the key concatenated with the magic GUID, and the RFC sample key produces
the expected accept value. -/
theorem gen_key_accept_value :
    (∀ key : String, gen_key key =
      base64Encode (sha1Bytes (strBytes key ++ strBytes websocketGuid))) ∧
    gen_key "dGhlIHNhbXBsZSBub25jZQ==" = "s3pPLMBiTxaQ9kYGzzhZRbK+xOo=" := by
  refine ⟨fun key => rfl, ?_⟩
  rfl

set_option maxRecDepth 20000 in
/-- C6 witness: the accept-value equation instantiated at the RFC sample
key. -/
theorem gen_key_accept_value_witness :
    gen_key "dGhlIHNhbXBsZSBub25jZQ==" =
      base64Encode (sha1Bytes (strBytes "dGhlIHNhbXBsZSBub25jZQ==" ++ strBytes websocketGuid)) ∧
    gen_key "dGhlIHNhbXBsZSBub25jZQ==" = "s3pPLMBiTxaQ9kYGzzhZRbK+xOo=" :=
  ⟨gen_key_accept_value.1 "dGhlIHNhbXBsZSBub25jZQ==", gen_key_accept_value.2⟩

end ChatRs
